import Mathlib

/-!
Verification of the Hello World DVN task-aggregation core: the task lifecycle,
response admission, and the quorum-consensus engine.

The development shallowly embeds the TypeScript sources:
  - `src/Common/model/Task.ts`, `src/Common/model/TaskResponse.ts` (data model),
  - `src/Common/DatabaseManager.ts` (the sqlite-backed Task Store),
  - `src/Common/TaskManager.ts` (the quorum engine),
  - `src/TaskAggregator/server.ts` (the admission endpoint),
  - `src/Common/OperatorHelper.ts` (operator directory and signature checks,
    modelled as boolean oracles since they call external contracts).

Database rows become Lean structures, the sqlite file becomes an explicit
`Store` value threaded through the operations, JavaScript floating-point
ratio checks become exact rational arithmetic (which agrees with IEEE doubles
at every operator/response count considered in the theorems below), and
promise rejections become `Except`/sum results.
-/

namespace DVN

/-- Task status constants from `Task.ts` (`STATUS_READY` etc.). -/
def STATUS_READY : String := "READY"

/-- `Task.STATUS_COMPLETED`. -/
def STATUS_COMPLETED : String := "COMPLETED"

/-- `Task.STATUS_CONSENSUS_NOT_REACHED`. -/
def STATUS_CONSENSUS_NOT_REACHED : String := "CONSENSUS_NOT_REACHED"

/-- A row of the sqlite `task` table
(`id INTEGER PRIMARY KEY AUTOINCREMENT, status TEXT, createdAt INTEGER,
input TEXT, response INTEGER NULL`). -/
structure TaskRow where
  id : Nat
  status : String
  createdAt : Nat
  input : String
  response : Option String
  deriving Repr, DecidableEq

/-- A row of the sqlite `task_response` table
(`id, task_id, operator_id, response, signature, createdAt`, with
`UNIQUE (task_id, operator_id)`). -/
structure TaskResponseRow where
  id : Nat
  taskId : Nat
  operatorId : Nat
  response : String
  signature : String
  createdAt : Nat
  deriving Repr, DecidableEq

/-- The durable state of the sqlite database: the two tables, with rows kept
in insertion (AUTOINCREMENT `id`) order, which is the order sqlite scans
them in. -/
structure Store where
  tasks : List TaskRow
  responses : List TaskResponseRow
  deriving Repr, DecidableEq

/-- The in-memory `Task` object of `model/Task.ts`.  Its `status` and
`response` fields are declared but not always assigned; unassigned
(JavaScript `undefined`) is modelled as `none`. -/
structure Task where
  id : Nat
  status : Option String
  createdAt : Nat
  input : String
  response : Option String
  deriving Repr, DecidableEq

namespace DatabaseManager

/-- The row-to-object mapping performed inside `DatabaseManager.getTask` and
`DatabaseManager.fetchNextUnresolvedTask`: only `id`, `createdAt` and `input`
are copied out of the row; `status` and `response` are left unassigned. -/
def taskFromRow (row : TaskRow) : Task :=
  { id := row.id
    status := none
    createdAt := row.createdAt
    input := row.input
    response := none }

/-- `DatabaseManager.getTask`: `SELECT * FROM task WHERE id = ?`, rejecting
when no row matches, and building a `Task` from the row via the copy of
`id`, `createdAt` and `input` only. -/
def getTask (s : Store) (taskId : Nat) : Option Task :=
  (s.tasks.find? (fun row => row.id = taskId)).map taskFromRow

/-- `DatabaseManager.operatorSentTaskResponse`:
`SELECT * FROM task_response WHERE task_id = ? AND operator_id = ?`,
resolving `true` exactly when a row exists. -/
def operatorSentTaskResponse (s : Store) (taskId operatorId : Nat) : Bool :=
  s.responses.any (fun r => r.taskId = taskId && r.operatorId = operatorId)

/-- `DatabaseManager.getTaskResponses`:
`SELECT * FROM task_response WHERE task_id = ?`. -/
def getTaskResponses (s : Store) (taskId : Nat) : List TaskResponseRow :=
  s.responses.filter (fun r => r.taskId = taskId)

/-- `DatabaseManager.getTaskResponsesCount`:
`SELECT COUNT(*) FROM task_response WHERE task_id = ?`. -/
def getTaskResponsesCount (s : Store) (taskId : Nat) : Nat :=
  (getTaskResponses s taskId).length

/-- `DatabaseManager.registerOperatorTaskResponse`: first checks
`operatorSentTaskResponse` and rejects with "Operator already sent response"
when a prior row exists; otherwise inserts the new `task_response` row.
`newId` stands for the AUTOINCREMENT id and `now` for `Date.now()`. -/
def registerOperatorTaskResponse (s : Store) (task : Task) (operatorId : Nat)
    (response signature : String) (now newId : Nat) : Except String Store :=
  if operatorSentTaskResponse s task.id operatorId then
    .error "Operator already sent response"
  else
    .ok { s with
          responses := s.responses ++
            [{ id := newId
               taskId := task.id
               operatorId := operatorId
               response := response
               signature := signature
               createdAt := now }] }

/-- The update `UPDATE task SET ... WHERE id = ?` applied row-wise. -/
def updateTaskRow (s : Store) (taskId : Nat) (f : TaskRow → TaskRow) : Store :=
  { s with tasks := s.tasks.map (fun t => if t.id = taskId then f t else t) }

/-- `DatabaseManager.registerFinalTaskResponse`:
`UPDATE task SET response = ?, status = 'COMPLETED' WHERE id = ?`. -/
def registerFinalTaskResponse (s : Store) (taskId : Nat) (response : String) :
    Store :=
  updateTaskRow s taskId
    (fun t => { t with response := some response, status := STATUS_COMPLETED })

/-- `DatabaseManager.handleConsensusNotReached`:
`UPDATE task SET status = 'CONSENSUS_NOT_REACHED' WHERE id = ?` (the
`response` column is not touched). -/
def handleConsensusNotReached (s : Store) (taskId : Nat) : Store :=
  updateTaskRow s taskId
    (fun t => { t with status := STATUS_CONSENSUS_NOT_REACHED })

/-- The SQL query of `DatabaseManager.fetchNextUnresolvedTask`:
`LEFT JOIN task_response tr ON t.id = tr.task_id AND tr.operator_id = ?`
with `WHERE ... tr.id IS NULL` is an anti-join — the candidate rows are the
`READY` tasks without a response row from this operator. -/
def unresolvedCandidates (s : Store) (operatorId : Nat) : List TaskRow :=
  s.tasks.filter (fun t =>
    t.status = STATUS_READY &&
      !(s.responses.any (fun r => r.taskId = t.id && r.operatorId = operatorId)))

/-- `ORDER BY t.createdAt ASC LIMIT 1` over a scan of the `task` table in
rowid (= `id`) order: the first row attaining the minimal `createdAt`. -/
def minByCreatedAt : List TaskRow → Option TaskRow
  | [] => none
  | t :: ts =>
    match minByCreatedAt ts with
    | none => some t
    | some b => if t.createdAt ≤ b.createdAt then some t else some b

/-- `DatabaseManager.fetchNextUnresolvedTask`: the anti-join query above,
returning the oldest matching row mapped through the same partial
row-to-object copy as `getTask`. -/
def fetchNextUnresolvedTask (s : Store) (operatorId : Nat) : Option Task :=
  (minByCreatedAt (unresolvedCandidates s operatorId)).map taskFromRow

end DatabaseManager

namespace TaskManager

/-- `const responsesCountQuorum = 9000` — 90% of responses on the total
number of operators (`TaskManager.ts`). -/
def responsesCountQuorum : Nat := 9000

/-- `const responsesContentQuorum = 9000` — 90% of responses must have the
same content (`TaskManager.ts`). -/
def responsesContentQuorum : Nat := 9000

/-- The record resolved by `TaskManager.checkResponsesAmountReachedQuorum`. -/
structure QuorumCheck where
  result : Bool
  responsesCount : Nat
  operatorsCount : Nat
  quorum : Nat
  deriving Repr, DecidableEq

/-- `TaskManager.checkResponsesAmountReachedQuorum`.  The source computes
`percentageInBps = (responsesCount / operatorsCount) * 10000` in IEEE
doubles and `quorum = Math.floor((responsesCountQuorum / 10000) *
operatorsCount)`, overridden to `1` when `operatorsCount == 1`; we compute
the same expressions in exact rational arithmetic (they agree at every
count appearing in the theorems below).  The threshold is taken as the
parameter `pbps`; the engine always passes the module constant
`responsesCountQuorum`. -/
def checkResponsesAmountReachedQuorum (s : Store) (operatorsCount : Nat)
    (task : Task) (pbps : Nat) : QuorumCheck :=
  let responsesCount := DatabaseManager.getTaskResponsesCount s task.id
  let percentageInBps : ℚ := ((responsesCount : ℚ) / (operatorsCount : ℚ)) * 10000
  let quorum0 := (⌊((pbps : ℚ) / 10000) * (operatorsCount : ℚ)⌋).toNat
  { result := decide (percentageInBps ≥ (pbps : ℚ))
    responsesCount := responsesCount
    operatorsCount := operatorsCount
    quorum := if operatorsCount = 1 then 1 else quorum0 }

/-- The `responseFrequency` map built in
`TaskManager.getResponsesContentReachedQuorum`: how many stored responses
carry exactly the payload `v` (string equality). -/
def responseFrequency (rs : List TaskResponseRow) (v : String) : Nat :=
  (rs.filter (fun r => r.response = v)).length

/-- The frequency of the most frequent response payload among `rs`. -/
def maxResponseFrequency (rs : List TaskResponseRow) : Nat :=
  (rs.map (fun r => responseFrequency rs r.response)).foldr max 0

/-- `TaskManager.getResponsesContentReachedQuorum`: group the stored
responses of the task by exact payload equality, pick a most frequent
payload, and resolve with it when
`mostFrequentResponseCount * 10000 >= responsesContentQuorum *
taskResponses.length`, rejecting (`none`) otherwise.  The source picks its
representative by reducing over the frequency-map keys with
`freq[a] > freq[b] ? a : b`; we pick the first stored row attaining the
maximal frequency — both are payloads of maximal frequency, and whenever
the threshold passes on a nonempty response set the maximal group is unique
(its size exceeds half), so the resolved payload is the same.  On an empty
response set the source's `reduce` throws inside an async executor and the
evaluation never settles; this point is modelled as `none` and is excluded
by hypothesis wherever it matters. -/
def getResponsesContentReachedQuorum (s : Store) (task : Task) (cbps : Nat) :
    Option String :=
  let rs := DatabaseManager.getTaskResponses s task.id
  match rs.find? (fun r =>
      responseFrequency rs r.response = maxResponseFrequency rs) with
  | none => none
  | some r =>
    if maxResponseFrequency rs * 10000 ≥ cbps * rs.length then some r.response
    else none

/-- Which branch of `TaskManager.validateTaskResponses` settled the promise:
the `"Task already validated"` rejection, the `"Waiting for more responses"`
rejection (with the diagnostic counts of the log message), the resolution
after `registerFinalTaskResponse`, or the `"unable to reach consensus"`
rejection after `handleConsensusNotReached`. -/
inductive ValidationOutcome where
  | alreadyValidated
  | waitingForResponses (responsesCount operatorsCount quorum : Nat)
  | consensusReached (response : String)
  | consensusNotReached
  deriving Repr, DecidableEq

/-- `TaskManager.validateTaskResponses`: the idempotence guard
`if (task.response != null)`, then the participation quorum check, then the
content quorum check, finalizing the task row through
`registerFinalTaskResponse` or `handleConsensusNotReached`.  The pair is
(settled branch, post-state of the store); `operatorsCount` is the value
`OperatorHelper.getRegisteredOperatorsCount()` reports during this
evaluation. -/
def validateTaskResponses (s : Store) (operatorsCount : Nat) (task : Task) :
    ValidationOutcome × Store :=
  if task.response.isSome then (.alreadyValidated, s)
  else
    let check := checkResponsesAmountReachedQuorum s operatorsCount task
      responsesCountQuorum
    if !check.result then
      (.waitingForResponses check.responsesCount check.operatorsCount
        check.quorum, s)
    else
      match getResponsesContentReachedQuorum s task responsesContentQuorum with
      | some winner =>
        (.consensusReached winner,
          DatabaseManager.registerFinalTaskResponse s task.id winner)
      | none =>
        (.consensusNotReached,
          DatabaseManager.handleConsensusNotReached s task.id)

end TaskManager

/-- The external collaborators of the admission endpoint, as boolean
oracles: the operator directory count read by
`OperatorHelper.getRegisteredOperatorsCount`, the registry check behind
`OperatorHelper.verifyOperator`, and the signature check behind
`OperatorHelper.verifySignature` (which receives the task id, the operator
id, the response payload and the signature). -/
structure OperatorEnv where
  operatorsCount : Nat
  isRegistered : Nat → Bool
  signatureValid : Nat → Nat → String → String → Bool

/-- The HTTP outcome of the `POST /task/:id/response` handler: a 400 with an
error payload, or a bare 200. -/
inductive AdmissionOutcome where
  | badRequest (error : String)
  | accepted
  deriving Repr, DecidableEq

/-- The `POST /task/:id/response` handler of `TaskAggregator/server.ts`:
required-field checks, `getTask`, `verifyOperator`, `verifySignature`,
`registerOperatorTaskResponse`, then `validateTaskResponses` inside an
inner `try { ... } catch (error) {}` whose failure is swallowed — the
handler answers 200 whenever registration succeeded, and any rejection
before that point answers 400 with the rejection payload.  JavaScript
falsiness of the request fields is modelled as the empty string / the zero
operator id; `now` and `newId` stand for `Date.now()` and the AUTOINCREMENT
id of the inserted row. -/
def handleTaskResponse (env : OperatorEnv) (s : Store) (taskId : Nat)
    (response : String) (operatorId : Nat) (signature : String)
    (now newId : Nat) : AdmissionOutcome × Store :=
  if response = "" then (.badRequest "request.response is required", s)
  else if operatorId = 0 then (.badRequest "request.operatorId is required", s)
  else if signature = "" then (.badRequest "request.signature is required", s)
  else
    match DatabaseManager.getTask s taskId with
    | none =>
      (.badRequest ("Task with ID " ++ toString taskId ++ " not found"), s)
    | some task =>
      if !env.isRegistered operatorId then
        (.badRequest ("Operator #" ++ toString operatorId ++
          " is not registered to the demo DVN"), s)
      else if !env.signatureValid task.id operatorId response signature then
        (.badRequest "Signature verification failed", s)
      else
        match DatabaseManager.registerOperatorTaskResponse s task operatorId
          response signature now newId with
        | .error e => (.badRequest e, s)
        | .ok s1 =>
          (.accepted,
            (TaskManager.validateTaskResponses s1 env.operatorsCount task).2)

/-!
Concrete fixtures used by the closed instantiations below.
-/

/-- A `READY` task row used by the concrete scenarios. -/
def fixtureTaskRow : TaskRow :=
  { id := 1
    status := STATUS_READY
    createdAt := 100
    input := "points"
    response := none }

/-- The in-memory object `getTask` yields for `fixtureTaskRow`. -/
def fixtureTask : Task := DatabaseManager.taskFromRow fixtureTaskRow

/-- A response row for task 1 from operator `op` with payload `v`. -/
def fixtureResponse (op : Nat) (v : String) : TaskResponseRow :=
  { id := op
    taskId := 1
    operatorId := op
    response := v
    signature := "sig"
    createdAt := 100 }

/-- A store holding task 1 and the given response rows. -/
def fixtureStore (rows : List TaskResponseRow) : Store :=
  { tasks := [fixtureTaskRow], responses := rows }

/-- `k` identical `"A"` responses from operators `1..k`. -/
def agreeingResponses (k : Nat) : List TaskResponseRow :=
  (List.range k).map (fun i => fixtureResponse (i + 1) "A")

/-- `a` responses `"A"` followed by `b` responses `"B"`, from distinct
operators. -/
def mixedResponses (a b : Nat) : List TaskResponseRow :=
  agreeingResponses a ++
    (List.range b).map (fun i => fixtureResponse (a + i + 1) "B")

/-- An environment where every operator is registered and every signature
verifies, with the given directory count. -/
def permissiveEnv (operatorsCount : Nat) : OperatorEnv :=
  { operatorsCount := operatorsCount
    isRegistered := fun _ => true
    signatureValid := fun _ _ _ _ => true }

/-- A `READY` task row with the given id and creation time. -/
def dispatchRow (i c : Nat) : TaskRow :=
  { id := i, status := STATUS_READY, createdAt := c, input := "in",
    response := none }

/-- Three `READY` tasks created at times 10 < 20 < 30, none answered. -/
def dispatchStore : Store :=
  { tasks := [dispatchRow 1 10, dispatchRow 2 20, dispatchRow 3 30]
    responses := [] }

/-- The same three tasks after operator 5 answered the oldest one. -/
def dispatchStoreAnswered : Store :=
  { tasks := [dispatchRow 1 10, dispatchRow 2 20, dispatchRow 3 30]
    responses := [{ id := 1, taskId := 1, operatorId := 5, response := "A",
                    signature := "sig", createdAt := 15 }] }

/-- A task row persisted in the terminal `COMPLETED` state with its final
response. -/
def c1Row : TaskRow :=
  { id := 1, status := STATUS_COMPLETED, createdAt := 100, input := "points",
    response := some "A" }

/-- A store whose only task is already finalized `COMPLETED` on the single
response of operator 1 (the registered-operator count was 1 when it was
finalized). -/
def c1Store : Store :=
  { tasks := [c1Row], responses := [fixtureResponse 1 "A"] }

/-- The in-memory object `getTask` yields for the finalized task. -/
def c1Task : Task := DatabaseManager.taskFromRow c1Row

/-- The store after operator 2's admission of payload `"B"` is persisted. -/
def c1StoreAfter : Store :=
  { c1Store with
    responses := c1Store.responses ++
      [{ id := 2, taskId := 1, operatorId := 2, response := "B",
         signature := "sig2", createdAt := 200 }] }

/-!
Arithmetic characterizations: the rational expressions of the quorum check
are equivalent to integer comparisons, which makes every concrete
evaluation below decidable.
-/

/-- The participation ratio check `(r / n) * 10000 ≥ pbps` over ℚ is the
integer comparison `pbps * n ≤ r * 10000` whenever `n ≠ 0`. -/
lemma ratio_reached_iff_nat (pbps r n : Nat) (hn : n ≠ 0) :
    ((pbps : ℚ) ≤ (r : ℚ) / (n : ℚ) * 10000) ↔ pbps * n ≤ r * 10000 := by
  have hn' : (0 : ℚ) < (n : ℚ) := by
    exact_mod_cast Nat.pos_of_ne_zero hn
  rw [div_mul_eq_mul_div, le_div_iff₀ hn']
  constructor
  · intro h
    exact_mod_cast h
  · intro h
    exact_mod_cast h

/-- The floored quorum `⌊(pbps / 10000) * n⌋` over ℚ is natural division. -/
lemma floor_quorum_eq_natDiv (pbps n : Nat) :
    (⌊((pbps : ℚ) / 10000) * (n : ℚ)⌋).toNat = pbps * n / 10000 := by
  rw [div_mul_eq_mul_div]
  rw [show ((pbps : ℚ) * (n : ℚ)) = (((pbps * n : ℕ)) : ℚ) by push_cast; ring]
  rw [show ((10000 : ℚ)) = (((10000 : ℕ)) : ℚ) by norm_num]
  rw [Rat.floor_natCast_div_natCast]
  exact Int.toNat_natCast _

/-- `checkResponsesAmountReachedQuorum` spelled with integer arithmetic. -/
lemma checkQuorum_eq (s : Store) (operatorsCount : Nat) (task : Task)
    (pbps : Nat) (hn : operatorsCount ≠ 0) :
    TaskManager.checkResponsesAmountReachedQuorum s operatorsCount task pbps =
      { result := decide (pbps * operatorsCount ≤
          DatabaseManager.getTaskResponsesCount s task.id * 10000)
        responsesCount := DatabaseManager.getTaskResponsesCount s task.id
        operatorsCount := operatorsCount
        quorum := if operatorsCount = 1 then 1
          else pbps * operatorsCount / 10000 } := by
  unfold TaskManager.checkResponsesAmountReachedQuorum
  simp only [ge_iff_le, floor_quorum_eq_natDiv]
  congr 1
  exact decide_eq_decide.mpr (ratio_reached_iff_nat pbps _ _ hn)

/-- `validateTaskResponses` never touches the `task_response` table: the
store it returns has the same response rows. -/
lemma validate_preserves_responses (s : Store) (operatorsCount : Nat)
    (task : Task) :
    ((TaskManager.validateTaskResponses s operatorsCount task).2).responses =
      s.responses := by
  unfold TaskManager.validateTaskResponses
  by_cases h : task.response.isSome
  · simp [h]
  · simp only [h]
    by_cases h2 : (TaskManager.checkResponsesAmountReachedQuorum s
        operatorsCount task TaskManager.responsesCountQuorum).result
    · simp only [h2]
      cases TaskManager.getResponsesContentReachedQuorum s task
          TaskManager.responsesContentQuorum with
      | none =>
        simp [DatabaseManager.handleConsensusNotReached,
          DatabaseManager.updateTaskRow]
      | some w =>
        simp [DatabaseManager.registerFinalTaskResponse,
          DatabaseManager.updateTaskRow]
    · simp [h2]

/-- `validateTaskResponses` on a task object with no in-memory `response`,
spelled with integer arithmetic, for a nonzero operator count. -/
lemma validate_eq (s : Store) (operatorsCount : Nat) (task : Task)
    (hresp : task.response = none) (hn : operatorsCount ≠ 0) :
    TaskManager.validateTaskResponses s operatorsCount task =
      if TaskManager.responsesCountQuorum * operatorsCount ≤
          DatabaseManager.getTaskResponsesCount s task.id * 10000 then
        match TaskManager.getResponsesContentReachedQuorum s task
            TaskManager.responsesContentQuorum with
        | some winner =>
          (.consensusReached winner,
            DatabaseManager.registerFinalTaskResponse s task.id winner)
        | none =>
          (.consensusNotReached,
            DatabaseManager.handleConsensusNotReached s task.id)
      else
        (.waitingForResponses (DatabaseManager.getTaskResponsesCount s task.id)
          operatorsCount
          (if operatorsCount = 1 then 1
            else TaskManager.responsesCountQuorum * operatorsCount / 10000),
          s) := by
  unfold TaskManager.validateTaskResponses
  rw [checkQuorum_eq s operatorsCount task TaskManager.responsesCountQuorum hn]
  simp only [hresp, Option.isSome_none, Bool.false_eq_true, if_false,
    Bool.not_eq_eq_eq_not, Bool.not_true, decide_eq_false_iff_not, not_le]
  by_cases h : TaskManager.responsesCountQuorum * operatorsCount ≤
      DatabaseManager.getTaskResponsesCount s task.id * 10000
  · simp [h]
  · simp [h, lt_of_not_le h]

/-!
Content-quorum characterizations.
-/

/-- The fold computing the largest frequency returns a member of the list. -/
lemma foldr_max_mem (l : List Nat) (hl : l ≠ []) : l.foldr max 0 ∈ l := by
  induction l with
  | nil => exact absurd rfl hl
  | cons a t ih =>
    cases t with
    | nil => simp
    | cons b u =>
      have ht : (b :: u) ≠ [] := by simp
      rcases le_total a ((b :: u).foldr max 0) with h | h
      · simp only [List.foldr_cons] at *
        rw [max_eq_right h]
        exact List.mem_cons_of_mem a (ih ht)
      · simp only [List.foldr_cons] at *
        rw [max_eq_left h]
        exact List.mem_cons_self a _

/-- Every member of the list is bounded by the max fold. -/
lemma le_foldr_max (l : List Nat) (a : Nat) (ha : a ∈ l) :
    a ≤ l.foldr max 0 := by
  induction l with
  | nil => cases ha
  | cons b t ih =>
    rcases List.mem_cons.mp ha with h | h
    · subst h; exact le_max_left _ _
    · exact le_trans (ih h) (le_max_right _ _)

/-- The maximal response frequency is attained by some stored row. -/
lemma maxResponseFrequency_attained (rs : List TaskResponseRow)
    (h : rs ≠ []) :
    ∃ r ∈ rs, TaskManager.responseFrequency rs r.response =
      TaskManager.maxResponseFrequency rs := by
  have hmem := foldr_max_mem
    (rs.map fun r => TaskManager.responseFrequency rs r.response)
    (by simpa using h)
  rw [List.mem_map] at hmem
  obtain ⟨r, hr, heq⟩ := hmem
  exact ⟨r, hr, heq⟩

/-- Every stored row's payload frequency is at most the maximal one. -/
lemma responseFrequency_le_max (rs : List TaskResponseRow)
    (r : TaskResponseRow) (hr : r ∈ rs) :
    TaskManager.responseFrequency rs r.response ≤
      TaskManager.maxResponseFrequency rs :=
  le_foldr_max _ _ (List.mem_map_of_mem _ hr)

/-- When the stored responses are nonempty and the largest group passes the
content threshold, `getResponsesContentReachedQuorum` resolves with a
payload of maximal frequency. -/
lemma content_quorum_reached (s : Store) (task : Task) (cbps : Nat)
    (hne : DatabaseManager.getTaskResponses s task.id ≠ [])
    (hq : TaskManager.maxResponseFrequency
        (DatabaseManager.getTaskResponses s task.id) * 10000 ≥
      cbps * (DatabaseManager.getTaskResponses s task.id).length) :
    ∃ w, TaskManager.getResponsesContentReachedQuorum s task cbps = some w ∧
      TaskManager.responseFrequency
          (DatabaseManager.getTaskResponses s task.id) w =
        TaskManager.maxResponseFrequency
          (DatabaseManager.getTaskResponses s task.id) := by
  set rs := DatabaseManager.getTaskResponses s task.id with hrs
  have hex : ∃ r ∈ rs, (TaskManager.responseFrequency rs r.response =
      TaskManager.maxResponseFrequency rs : Bool) := by
    obtain ⟨r, hr, heq⟩ := maxResponseFrequency_attained rs hne
    exact ⟨r, hr, by simpa using heq⟩
  have hsome : (rs.find? (fun r =>
      TaskManager.responseFrequency rs r.response =
        TaskManager.maxResponseFrequency rs)).isSome :=
    List.find?_isSome.mpr hex
  obtain ⟨r, hfind⟩ := Option.isSome_iff_exists.mp hsome
  have hpr : TaskManager.responseFrequency rs r.response =
      TaskManager.maxResponseFrequency rs := by
    simpa using List.find?_some hfind
  refine ⟨r.response, ?_, hpr⟩
  unfold TaskManager.getResponsesContentReachedQuorum
  simp only [← hrs, hfind, hq, ge_iff_le, if_true]

/-- When the largest group misses the content threshold,
`getResponsesContentReachedQuorum` rejects. -/
lemma content_quorum_not_reached (s : Store) (task : Task) (cbps : Nat)
    (hq : ¬ (TaskManager.maxResponseFrequency
        (DatabaseManager.getTaskResponses s task.id) * 10000 ≥
      cbps * (DatabaseManager.getTaskResponses s task.id).length)) :
    TaskManager.getResponsesContentReachedQuorum s task cbps = none := by
  unfold TaskManager.getResponsesContentReachedQuorum
  cases hfind : (DatabaseManager.getTaskResponses s task.id).find? (fun r =>
      TaskManager.responseFrequency
        (DatabaseManager.getTaskResponses s task.id) r.response =
      TaskManager.maxResponseFrequency
        (DatabaseManager.getTaskResponses s task.id)) with
  | none => simp [hfind]
  | some r => simp [hfind, hq]

/-- Each stored row's payload occurs at least once. -/
lemma one_le_responseFrequency (rs : List TaskResponseRow)
    (r : TaskResponseRow) (hr : r ∈ rs) :
    1 ≤ TaskManager.responseFrequency rs r.response := by
  unfold TaskManager.responseFrequency
  have hm : r ∈ rs.filter (fun x => x.response = r.response) :=
    List.mem_filter.mpr ⟨hr, by simp⟩
  exact List.length_pos_of_mem hm

/-- Two distinct payloads occupy disjoint groups, so their frequencies sum
to at most the number of stored responses. -/
lemma responseFrequency_add_le_length (rs : List TaskResponseRow)
    (v w : String) (hvw : v ≠ w) :
    TaskManager.responseFrequency rs v + TaskManager.responseFrequency rs w ≤
      rs.length := by
  induction rs with
  | nil => simp [TaskManager.responseFrequency]
  | cons r tl ih =>
    unfold TaskManager.responseFrequency at ih ⊢
    simp only [List.filter_cons, List.length_cons]
    by_cases hv : r.response = v
    · have hw : ¬ (r.response = w) := by
        rw [hv]; exact hvw
      simp [hv, hw, hvw]
      omega
    · by_cases hw : r.response = w
      · simp [hv, hw, Ne.symm hvw]
        omega
      · simp [hv, hw]
        omega

/-- When the content threshold passes on a nonempty response set, the
maximal group is unique: any payload attaining the maximal frequency equals
any other. -/
lemma winning_payload_unique (rs : List TaskResponseRow) (hne : rs ≠ [])
    (hq : TaskManager.maxResponseFrequency rs * 10000 ≥
      TaskManager.responsesContentQuorum * rs.length)
    (v w : String)
    (hv : TaskManager.responseFrequency rs v =
      TaskManager.maxResponseFrequency rs)
    (hw : TaskManager.responseFrequency rs w =
      TaskManager.maxResponseFrequency rs) :
    v = w := by
  by_contra hvw
  have hsum := responseFrequency_add_le_length rs v w hvw
  obtain ⟨r, hr, -⟩ := maxResponseFrequency_attained rs hne
  have h1 : 1 ≤ TaskManager.responseFrequency rs r.response :=
    one_le_responseFrequency rs r hr
  have hle : TaskManager.responseFrequency rs r.response ≤
      TaskManager.maxResponseFrequency rs :=
    responseFrequency_le_max rs r hr
  have hRpos : 1 ≤ rs.length := List.length_pos.mpr hne
  rw [hv, hw] at hsum
  unfold TaskManager.responsesContentQuorum at hq
  omega

/-- `minByCreatedAt` on a list whose ids strictly increase (the
AUTOINCREMENT scan order) is `none` exactly on the empty list, and
otherwise returns a member that is minimal by `createdAt`, breaking
`createdAt` ties towards the smaller id. -/
lemma minByCreatedAt_spec (l : List TaskRow)
    (hid : l.Pairwise (fun a b => a.id < b.id)) :
    (DatabaseManager.minByCreatedAt l = none ↔ l = []) ∧
    ∀ t, DatabaseManager.minByCreatedAt l = some t → t ∈ l ∧
      ∀ u ∈ l, t.createdAt ≤ u.createdAt ∧
        (u.createdAt = t.createdAt → t.id ≤ u.id) := by
  induction l with
  | nil => exact ⟨by simp [DatabaseManager.minByCreatedAt], by
      intro t ht
      simp [DatabaseManager.minByCreatedAt] at ht⟩
  | cons a tl ih =>
    have hpair := List.pairwise_cons.mp hid
    obtain ⟨ha, htl⟩ := hpair
    obtain ⟨ihnone, ihsome⟩ := ih htl
    constructor
    · constructor
      · intro h
        unfold DatabaseManager.minByCreatedAt at h
        cases hm : DatabaseManager.minByCreatedAt tl with
        | none => rw [hm] at h; exact absurd h (by simp)
        | some b => rw [hm] at h; by_cases hc : a.createdAt ≤ b.createdAt <;>
            simp [hc] at h
      · intro h; cases h
    · intro t ht
      unfold DatabaseManager.minByCreatedAt at ht
      cases hm : DatabaseManager.minByCreatedAt tl with
      | none =>
        rw [hm] at ht
        have htleq : tl = [] := ihnone.mp hm
        simp only [Option.some.injEq] at ht
        subst ht
        subst htleq
        exact ⟨List.mem_singleton_self a, by
          intro u hu
          rw [List.mem_singleton] at hu
          subst hu
          exact ⟨le_refl _, fun _ => le_refl _⟩⟩
      | some b =>
        rw [hm] at ht
        obtain ⟨hbmem, hbmin⟩ := ihsome b hm
        by_cases hc : a.createdAt ≤ b.createdAt
        · simp only [if_pos hc, Option.some.injEq] at ht
          subst ht
          refine ⟨List.mem_cons_self _ _, ?_⟩
          intro u hu
          rcases List.mem_cons.mp hu with h | h
          · subst h; exact ⟨le_refl _, fun _ => le_refl _⟩
          · exact ⟨le_trans hc (hbmin u h).1,
              fun _ => le_of_lt (ha u h)⟩
        · simp only [if_neg hc, Option.some.injEq] at ht
          subst ht
          have hlt : b.createdAt < a.createdAt := lt_of_not_le hc
          refine ⟨List.mem_cons_of_mem a hbmem, ?_⟩
          intro u hu
          rcases List.mem_cons.mp hu with h | h
          · subst h
            exact ⟨le_of_lt hlt, fun he => absurd he (by omega)⟩
          · exact hbmin u h

/-!
The claims.
-/

/-- C10: for every stored task, `DatabaseManager.getTask` returns a `Task`
object whose `status` and `response` fields are undefined regardless of the
values persisted in the database row — only `id`, `createdAt` and `input`
are copied — so callers of `getTask` can never observe a task's persisted
terminal status or final response. -/
theorem c10_getTask_drops_status_and_response (s : Store) (taskId : Nat)
    (t : Task) (h : DatabaseManager.getTask s taskId = some t) :
    t.status = none ∧ t.response = none ∧
    ∃ row ∈ s.tasks, row.id = taskId ∧ t.id = row.id ∧
      t.createdAt = row.createdAt ∧ t.input = row.input := by
  unfold DatabaseManager.getTask at h
  obtain ⟨row, hfind, hmap⟩ := Option.map_eq_some'.mp h
  have hmem : row ∈ s.tasks := List.mem_of_find?_eq_some hfind
  have hid : row.id = taskId := by simpa using List.find?_some hfind
  subst hmap
  exact ⟨rfl, rfl, row, hmem, hid, rfl, rfl, rfl⟩

/-- C10 witness: a store whose only task row is persisted as `COMPLETED`
with a final response, yet `getTask` yields an object with neither. -/
theorem c10_witness :
    DatabaseManager.getTask
        { tasks := [{ id := 1, status := STATUS_COMPLETED, createdAt := 100,
                      input := "points", response := some "A" }],
          responses := [] } 1 =
      some { id := 1, status := none, createdAt := 100, input := "points",
             response := none } ∧
    ({ id := 1, status := none, createdAt := 100, input := "points",
       response := none } : Task).status = none ∧
    ({ id := 1, status := none, createdAt := 100, input := "points",
       response := none } : Task).response = none := by
  refine ⟨by decide, ?_, ?_⟩
  · exact (c10_getTask_drops_status_and_response
      { tasks := [{ id := 1, status := STATUS_COMPLETED, createdAt := 100,
                    input := "points", response := some "A" }],
        responses := [] } 1 _ (by decide)).1
  · exact (c10_getTask_drops_status_and_response
      { tasks := [{ id := 1, status := STATUS_COMPLETED, createdAt := 100,
                    input := "points", response := some "A" }],
        responses := [] } 1 _ (by decide)).2.1

/-- C2: admitting a response for the same `(taskId, operatorId)` pair twice
succeeds exactly once: a successful registration appends exactly the new
row, and a second registration for the same pair rejects with the
duplicate-response error regardless of the second payload, so the original
row is never overwritten or modified. -/
theorem c2_duplicate_admission_rejected (s s1 : Store) (task : Task)
    (op : Nat) (r1 sig1 r2 sig2 : String) (n1 i1 n2 i2 : Nat)
    (h : DatabaseManager.registerOperatorTaskResponse s task op r1 sig1 n1 i1
      = .ok s1) :
    s1.responses = s.responses ++
      [{ id := i1, taskId := task.id, operatorId := op, response := r1,
         signature := sig1, createdAt := n1 }] ∧
    s1.tasks = s.tasks ∧
    DatabaseManager.registerOperatorTaskResponse s1 task op r2 sig2 n2 i2 =
      .error "Operator already sent response" := by
  unfold DatabaseManager.registerOperatorTaskResponse at h ⊢
  by_cases hd : DatabaseManager.operatorSentTaskResponse s task.id op
  · simp [hd] at h
  · simp only [hd, Bool.false_eq_true, if_false, Except.ok.injEq] at h
    subst h
    have hdup : DatabaseManager.operatorSentTaskResponse
        { s with responses := s.responses ++
          [{ id := i1, taskId := task.id, operatorId := op, response := r1,
             signature := sig1, createdAt := n1 }] } task.id op = true := by
      unfold DatabaseManager.operatorSentTaskResponse
      simp
    exact ⟨rfl, rfl, by simp [hdup]⟩

/-- C2 witness: registering operator 1 on an empty response set succeeds
with exactly one appended row, and registering the same pair again — with a
different payload — rejects with the duplicate-response error. -/
theorem c2_witness :
    (fixtureStore [fixtureResponse 1 "A"]).responses =
      (fixtureStore []).responses ++
        [{ id := 1, taskId := fixtureTask.id, operatorId := 1,
           response := "A", signature := "sig", createdAt := 100 }] ∧
    (fixtureStore [fixtureResponse 1 "A"]).tasks = (fixtureStore []).tasks ∧
    DatabaseManager.registerOperatorTaskResponse
        (fixtureStore [fixtureResponse 1 "A"]) fixtureTask 1 "B" "sig2" 200 2
      = .error "Operator already sent response" :=
  c2_duplicate_admission_rejected (fixtureStore []) _ fixtureTask 1 "A" "sig"
    "B" "sig2" 100 1 200 2 rfl

/-- C5: an admission whose signature does not verify fails with the
invalid-signature error and leaves the store unchanged — signature
verification happens strictly before `registerOperatorTaskResponse`, so no
`TaskResponse` row is persisted. -/
theorem c5_invalid_signature_leaves_store_unchanged (env : OperatorEnv)
    (s : Store) (taskId : Nat) (resp : String) (op : Nat) (sig : String)
    (now newId : Nat) (task : Task)
    (hr : resp ≠ "") (ho : op ≠ 0) (hs : sig ≠ "")
    (htask : DatabaseManager.getTask s taskId = some task)
    (hreg : env.isRegistered op = true)
    (hsig : env.signatureValid task.id op resp sig = false) :
    handleTaskResponse env s taskId resp op sig now newId =
      (.badRequest "Signature verification failed", s) := by
  unfold handleTaskResponse
  simp [hr, ho, hs, htask, hreg, hsig]

/-- C5 witness: a wrongly-signed admission against a concrete store answers
400 with the signature error and persists nothing. -/
theorem c5_witness :
    handleTaskResponse
        { operatorsCount := 1
          isRegistered := fun _ => true
          signatureValid := fun _ _ _ _ => false }
        (fixtureStore []) 1 "A" 1 "badsig" 100 1 =
      (.badRequest "Signature verification failed", fixtureStore []) :=
  c5_invalid_signature_leaves_store_unchanged _ _ 1 "A" 1 "badsig" 100 1
    fixtureTask (by decide) (by decide) (by decide) (by decide) rfl rfl

/-- C9: a successful admission is independent of the subsequent
evaluation's outcome — once every check passes and the response is stored,
the endpoint answers 200 whatever the (arbitrary) operator count makes the
triggered evaluation do, and the stored response row survives in the final
store. -/
theorem c9_admission_success_independent_of_evaluation (env : OperatorEnv)
    (s : Store) (taskId : Nat) (resp : String) (op : Nat) (sig : String)
    (now newId : Nat) (task : Task)
    (hr : resp ≠ "") (ho : op ≠ 0) (hs : sig ≠ "")
    (htask : DatabaseManager.getTask s taskId = some task)
    (hreg : env.isRegistered op = true)
    (hsig : env.signatureValid task.id op resp sig = true)
    (hnodup : DatabaseManager.operatorSentTaskResponse s task.id op = false) :
    (handleTaskResponse env s taskId resp op sig now newId).1 = .accepted ∧
    (handleTaskResponse env s taskId resp op sig now newId).2.responses =
      s.responses ++
        [{ id := newId, taskId := task.id, operatorId := op, response := resp,
           signature := sig, createdAt := now }] := by
  unfold handleTaskResponse
  simp only [hr, ho, hs, htask, hreg, hsig]
  unfold DatabaseManager.registerOperatorTaskResponse
  simp only [hnodup, Bool.false_eq_true, if_false]
  simp [validate_preserves_responses]

/-- C9 witness: with a single registered operator, the first admission is
accepted and its row is in the final store even though the evaluation it
triggers immediately finalizes the task. -/
theorem c9_witness :
    (handleTaskResponse (permissiveEnv 1) (fixtureStore []) 1 "A" 1 "sig"
        100 1).1 = .accepted ∧
    (handleTaskResponse (permissiveEnv 1) (fixtureStore []) 1 "A" 1 "sig"
        100 1).2.responses =
      (fixtureStore []).responses ++
        [{ id := 1, taskId := fixtureTask.id, operatorId := 1,
           response := "A", signature := "sig", createdAt := 100 }] :=
  c9_admission_success_independent_of_evaluation (permissiveEnv 1)
    (fixtureStore []) 1 "A" 1 "sig" 100 1 fixtureTask (by decide) (by decide)
    (by decide) (by decide) rfl rfl (by decide)

/-- C3: with `N = 10` operators and the 9000-bps participation threshold,
the computed quorum is 9; evaluation with 8 stored responses defers (with
no state change), and with 9 stored responses it passes the participation
check and proceeds to content evaluation. -/
theorem c3_quorum_arithmetic_n10 (s : Store) (t : Task)
    (hresp : t.response = none) :
    (TaskManager.checkResponsesAmountReachedQuorum s 10 t
        TaskManager.responsesCountQuorum).quorum = 9 ∧
    (DatabaseManager.getTaskResponsesCount s t.id = 8 →
      TaskManager.validateTaskResponses s 10 t =
        (.waitingForResponses 8 10 9, s)) ∧
    (DatabaseManager.getTaskResponsesCount s t.id = 9 →
      (∃ w, (TaskManager.validateTaskResponses s 10 t).1 =
          .consensusReached w) ∨
        (TaskManager.validateTaskResponses s 10 t).1 =
          .consensusNotReached) := by
  refine ⟨?_, ?_, ?_⟩
  · rw [checkQuorum_eq s 10 t _ (by norm_num)]
    norm_num [TaskManager.responsesCountQuorum]
  · intro h8
    rw [validate_eq s 10 t hresp (by norm_num), h8]
    norm_num [TaskManager.responsesCountQuorum]
  · intro h9
    rw [validate_eq s 10 t hresp (by norm_num), h9]
    norm_num [TaskManager.responsesCountQuorum]
    cases hc : TaskManager.getResponsesContentReachedQuorum s t
        TaskManager.responsesContentQuorum with
    | some w => exact Or.inl ⟨w, by simp [hc]⟩
    | none => exact Or.inr (by simp [hc])

/-- C3 witness: with 8 stored responses out of 10 operators the evaluation
defers, reporting quorum 9, and leaves the store unchanged. -/
theorem c3_witness :
    TaskManager.validateTaskResponses (fixtureStore (agreeingResponses 8)) 10
        fixtureTask =
      (.waitingForResponses 8 10 9, fixtureStore (agreeingResponses 8)) :=
  (c3_quorum_arithmetic_n10 (fixtureStore (agreeingResponses 8)) fixtureTask
    rfl).2.1 (by decide)

/-- C6: with `N = 3` operators and the 9000-bps threshold, the reported
quorum is `floor(0.9 * 3) = 2`, yet the reached decision — computed as a
ratio comparison rather than as `R ≥ quorum` — holds exactly when `R ≥ 3`:
it is false at `R = 2` (evaluation defers even though the stored response
count equals the reported quorum) and becomes true only at `R = 3`. -/
theorem c6_small_operator_count_boundary (s : Store) (t : Task)
    (hresp : t.response = none) :
    (TaskManager.checkResponsesAmountReachedQuorum s 3 t
        TaskManager.responsesCountQuorum).quorum = 2 ∧
    (TaskManager.checkResponsesAmountReachedQuorum s 3 t
        TaskManager.responsesCountQuorum).result =
      decide (3 ≤ DatabaseManager.getTaskResponsesCount s t.id) ∧
    (DatabaseManager.getTaskResponsesCount s t.id = 2 →
      TaskManager.validateTaskResponses s 3 t =
        (.waitingForResponses 2 3 2, s)) := by
  refine ⟨?_, ?_, ?_⟩
  · rw [checkQuorum_eq s 3 t _ (by norm_num)]
    norm_num [TaskManager.responsesCountQuorum]
  · rw [checkQuorum_eq s 3 t _ (by norm_num)]
    simp only [TaskManager.responsesCountQuorum]
    exact decide_eq_decide.mpr (by omega)
  · intro h2
    rw [validate_eq s 3 t hresp (by norm_num), h2]
    norm_num [TaskManager.responsesCountQuorum]

/-- C6 witness: with exactly 2 responses out of 3 operators — the reported
quorum — evaluation still defers. -/
theorem c6_witness :
    (TaskManager.checkResponsesAmountReachedQuorum
        (fixtureStore (agreeingResponses 2)) 3 fixtureTask
        TaskManager.responsesCountQuorum).quorum = 2 ∧
    TaskManager.validateTaskResponses (fixtureStore (agreeingResponses 2)) 3
        fixtureTask =
      (.waitingForResponses 2 3 2, fixtureStore (agreeingResponses 2)) :=
  ⟨(c6_small_operator_count_boundary (fixtureStore (agreeingResponses 2))
      fixtureTask rfl).1,
    (c6_small_operator_count_boundary (fixtureStore (agreeingResponses 2))
      fixtureTask rfl).2.2 (by decide)⟩

/-- C7: with a single eligible operator the computed quorum is 1 regardless
of the participation threshold, and a single stored response satisfies the
participation check, so evaluation proceeds to content evaluation (here all
the way to consensus). -/
theorem c7_single_operator_quorum (pbps : Nat) (s : Store) (t : Task)
    (hresp : t.response = none)
    (hcount : DatabaseManager.getTaskResponsesCount s t.id = 1) :
    (TaskManager.checkResponsesAmountReachedQuorum s 1 t pbps).quorum = 1 ∧
    (TaskManager.checkResponsesAmountReachedQuorum s 1 t
        TaskManager.responsesCountQuorum).result = true ∧
    ∃ w, (TaskManager.validateTaskResponses s 1 t).1 =
      .consensusReached w := by
  refine ⟨?_, ?_, ?_⟩
  · rw [checkQuorum_eq s 1 t _ (by norm_num)]
    norm_num
  · rw [checkQuorum_eq s 1 t _ (by norm_num), hcount]
    norm_num [TaskManager.responsesCountQuorum]
  · rw [validate_eq s 1 t hresp (by norm_num), hcount]
    have hne : DatabaseManager.getTaskResponses s t.id ≠ [] := by
      intro hnil
      rw [DatabaseManager.getTaskResponsesCount, hnil] at hcount
      simp at hcount
    have hlen : (DatabaseManager.getTaskResponses s t.id).length = 1 := hcount
    have hmax : TaskManager.maxResponseFrequency
        (DatabaseManager.getTaskResponses s t.id) * 10000 ≥
        TaskManager.responsesContentQuorum *
          (DatabaseManager.getTaskResponses s t.id).length := by
      obtain ⟨r, hrs⟩ := List.length_eq_one.mp hlen
      rw [hrs]
      simp [TaskManager.maxResponseFrequency, TaskManager.responseFrequency,
        TaskManager.responsesContentQuorum]
    obtain ⟨w, hw, -⟩ := content_quorum_reached s t
      TaskManager.responsesContentQuorum hne hmax
    rw [hw]
    exact ⟨w, by norm_num [TaskManager.responsesCountQuorum]⟩

/-- C7 witness: one operator, one response, threshold parameter 2500 bps:
quorum is still 1, the participation check passes, and evaluation reaches
consensus. -/
theorem c7_witness :
    (TaskManager.checkResponsesAmountReachedQuorum
        (fixtureStore (agreeingResponses 1)) 1 fixtureTask 2500).quorum = 1 ∧
    (TaskManager.checkResponsesAmountReachedQuorum
        (fixtureStore (agreeingResponses 1)) 1 fixtureTask
        TaskManager.responsesCountQuorum).result = true ∧
    ∃ w, (TaskManager.validateTaskResponses
        (fixtureStore (agreeingResponses 1)) 1 fixtureTask).1 =
      .consensusReached w :=
  c7_single_operator_quorum 2500 (fixtureStore (agreeingResponses 1))
    fixtureTask rfl (by decide)

/-- C4: for a task whose participation quorum is reached (and whose stored
response set is nonempty), grouping the `R` stored responses by exact
string equality and taking `C` the size of the largest group, evaluation
finalizes the task `COMPLETED` with the (unique) largest group's shared
value exactly when `C * 10000 ≥ 9000 * R`, and otherwise finalizes it
`CONSENSUS_NOT_REACHED`; the 9-identical-out-of-10 instance is the witness,
and 7-identical-out-of-10 falls under the second branch since
`7 * 10000 < 9000 * 10`. -/
theorem c4_content_threshold (s : Store) (operatorsCount : Nat) (t : Task)
    (hresp : t.response = none) (hn : operatorsCount ≠ 0)
    (hne : DatabaseManager.getTaskResponses s t.id ≠ [])
    (hq : (TaskManager.checkResponsesAmountReachedQuorum s operatorsCount t
      TaskManager.responsesCountQuorum).result = true) :
    (TaskManager.maxResponseFrequency (DatabaseManager.getTaskResponses s t.id)
          * 10000 ≥ 9000 * (DatabaseManager.getTaskResponses s t.id).length →
      ∃ w, TaskManager.validateTaskResponses s operatorsCount t =
          (.consensusReached w,
            DatabaseManager.registerFinalTaskResponse s t.id w) ∧
        TaskManager.responseFrequency
            (DatabaseManager.getTaskResponses s t.id) w =
          TaskManager.maxResponseFrequency
            (DatabaseManager.getTaskResponses s t.id) ∧
        ∀ v, TaskManager.responseFrequency
              (DatabaseManager.getTaskResponses s t.id) v =
            TaskManager.maxResponseFrequency
              (DatabaseManager.getTaskResponses s t.id) → v = w) ∧
    (¬ (TaskManager.maxResponseFrequency
            (DatabaseManager.getTaskResponses s t.id) * 10000 ≥
          9000 * (DatabaseManager.getTaskResponses s t.id).length) →
      TaskManager.validateTaskResponses s operatorsCount t =
        (.consensusNotReached,
          DatabaseManager.handleConsensusNotReached s t.id)) := by
  rw [checkQuorum_eq s operatorsCount t _ hn] at hq
  simp only [decide_eq_true_eq] at hq
  rw [validate_eq s operatorsCount t hresp hn, if_pos hq]
  constructor
  · intro hcontent
    have hcontent' : TaskManager.maxResponseFrequency
        (DatabaseManager.getTaskResponses s t.id) * 10000 ≥
        TaskManager.responsesContentQuorum *
          (DatabaseManager.getTaskResponses s t.id).length := by
      simpa [TaskManager.responsesContentQuorum] using hcontent
    obtain ⟨w, hw, hwf⟩ := content_quorum_reached s t _ hne hcontent'
    rw [hw]
    exact ⟨w, rfl, hwf,
      fun v hv => winning_payload_unique _ hne hcontent' v w hv hwf⟩
  · intro hcontent
    rw [content_quorum_not_reached s t _
      (by simpa [TaskManager.responsesContentQuorum] using hcontent)]

/-- C4 witness: 9 identical `"A"` responses and one `"B"` out of 10
operators finalize the task `COMPLETED` with the majority payload `"A"`. -/
theorem c4_witness :
    TaskManager.validateTaskResponses (fixtureStore (mixedResponses 9 1)) 10
        fixtureTask =
      (.consensusReached "A",
        DatabaseManager.registerFinalTaskResponse
          (fixtureStore (mixedResponses 9 1)) fixtureTask.id "A") := by
  obtain ⟨w, hw, hwf, huniq⟩ :=
    (c4_content_threshold (fixtureStore (mixedResponses 9 1)) 10 fixtureTask
      rfl (by decide) (by decide)
      (by rw [checkQuorum_eq (fixtureStore (mixedResponses 9 1)) 10
            fixtureTask TaskManager.responsesCountQuorum (by decide)]
          decide)).1 (by decide)
  have hA : "A" = w := huniq "A" (by decide)
  rw [← hA] at hw
  exact hw

/-- C8: under the AUTOINCREMENT invariant (task ids strictly increase in
scan order), `fetchNextUnresolvedTask x` returns `none` exactly when no
`READY` task unanswered by `x` exists, and otherwise returns the view of a
`READY` task row that `x` has not responded to, minimal by `createdAt` with
`createdAt` ties broken towards the smaller id; the t1 < t2 < t3 scenario
is the witness. -/
theorem c8_dispatch_ordering (s : Store) (x : Nat)
    (hid : s.tasks.Pairwise (fun a b => a.id < b.id)) :
    (DatabaseManager.fetchNextUnresolvedTask s x = none ↔
      DatabaseManager.unresolvedCandidates s x = []) ∧
    ∀ row, DatabaseManager.minByCreatedAt
        (DatabaseManager.unresolvedCandidates s x) = some row →
      DatabaseManager.fetchNextUnresolvedTask s x =
          some (DatabaseManager.taskFromRow row) ∧
      row ∈ s.tasks ∧ row.status = STATUS_READY ∧
      DatabaseManager.operatorSentTaskResponse s row.id x = false ∧
      ∀ u ∈ DatabaseManager.unresolvedCandidates s x,
        row.createdAt ≤ u.createdAt ∧
          (u.createdAt = row.createdAt → row.id ≤ u.id) := by
  have hpw : (DatabaseManager.unresolvedCandidates s x).Pairwise
      (fun a b => a.id < b.id) :=
    List.Pairwise.sublist (List.filter_sublist s.tasks) hid
  obtain ⟨hnone, hsome⟩ := minByCreatedAt_spec _ hpw
  constructor
  · unfold DatabaseManager.fetchNextUnresolvedTask
    rw [Option.map_eq_none']
    exact hnone
  · intro row hrow
    obtain ⟨hmem, hmin⟩ := hsome row hrow
    have hmem' := List.mem_filter.mp hmem
    have hpred := hmem'.2
    simp only [Bool.and_eq_true, Bool.not_eq_true', decide_eq_true_eq]
      at hpred
    refine ⟨?_, hmem'.1, hpred.1, hpred.2, hmin⟩
    unfold DatabaseManager.fetchNextUnresolvedTask
    rw [hrow]
    rfl

/-- C8 witness: three `READY` tasks created at 10 < 20 < 30 and operator 5:
the oldest is dispatched first, and once operator 5 has answered it the
next call dispatches the second-oldest. -/
theorem c8_witness :
    DatabaseManager.fetchNextUnresolvedTask dispatchStore 5 =
      some (DatabaseManager.taskFromRow (dispatchRow 1 10)) ∧
    DatabaseManager.fetchNextUnresolvedTask dispatchStoreAnswered 5 =
      some (DatabaseManager.taskFromRow (dispatchRow 2 20)) :=
  ⟨((c8_dispatch_ordering dispatchStore 5 (by decide)).2 (dispatchRow 1 10)
      (by decide)).1,
    ((c8_dispatch_ordering dispatchStoreAnswered 5 (by decide)).2
      (dispatchRow 2 20) (by decide)).1⟩

/-- C1 (refuted by the code): a task persisted in the terminal `COMPLETED`
state with final response `"A"` accepts a further admission from a new
operator, and the evaluation it triggers — far from rejecting — flips the
persisted status to `CONSENSUS_NOT_REACHED`: `getTask` never copies the
`status`/`response` columns, so the guard `task.response != null` in
`validateTaskResponses` cannot fire, and the task is re-finalized.  The
starting store is reachable: with a single registered operator, operator
1's sole response `"A"` legitimately completes the task; the directory then
grows to two operators and operator 2 submits `"B"`. -/
theorem c1_terminal_state_mutated_by_admission :
    c1Store.tasks.map TaskRow.status = [STATUS_COMPLETED] ∧
    (handleTaskResponse (permissiveEnv 2) c1Store 1 "B" 2 "sig2" 200 2).1 =
      .accepted ∧
    (handleTaskResponse (permissiveEnv 2) c1Store 1 "B" 2 "sig2" 200
        2).2.tasks =
      [{ id := 1, status := STATUS_CONSENSUS_NOT_REACHED, createdAt := 100,
         input := "points", response := some "A" }] := by
  have hstep : handleTaskResponse (permissiveEnv 2) c1Store 1 "B" 2 "sig2"
      200 2 =
      (.accepted, (TaskManager.validateTaskResponses c1StoreAfter 2
        c1Task).2) := rfl
  have hval : TaskManager.validateTaskResponses c1StoreAfter 2 c1Task =
      (.consensusNotReached,
        DatabaseManager.handleConsensusNotReached c1StoreAfter c1Task.id) := by
    rw [validate_eq c1StoreAfter 2 c1Task rfl (by decide),
      if_pos (by decide),
      content_quorum_not_reached c1StoreAfter c1Task
        TaskManager.responsesContentQuorum (by decide)]
  refine ⟨by decide, by rw [hstep], ?_⟩
  rw [hstep]
  simp only [hval]
  decide

end DVN
